import Mathlib

/-!
# Week11 player control: a shallow embedding of `SimplePlayerControl`

The component of `Gameplay/Components/SimplePlayerControl.{h,cpp}` is embedded
as pure functions over an explicit world state, and the game objects built by
`DefaultSceneLayer::_CreateScene` as a sequence of engine calls on a scene.

Modelling conventions:

* `float` values are `F32`: the finite values, the two infinities and NaN,
  with the IEEE 754 rules for the special values (`0 * inf = NaN`,
  `inf - inf = NaN`, every comparison with NaN false).  Finite results are
  exact: rounding to 24 bits, overflow to infinity and the sign of zero are not
  represented.
* `std::shared_ptr<GameObject>` is an optional object identifier into a heap of
  game objects (`World.objects`); the null pointer is `none`.
* every call that `Update` makes on the engine is appended to `World.calls`,
  so that "calls X exactly once" and "does not call Y" can be stated.
-/

namespace Week11

/-! ## float -/

/-- A `float`: a finite value (held exactly), plus or minus infinity, or NaN. -/
inductive F32 where
  | fin (q : ℚ)
  | pinf
  | ninf
  | nan
deriving DecidableEq

namespace F32

/-- Whether the value is finite, `std::isfinite`. -/
def isFinite : F32 → Bool
  | fin _ => true
  | _ => false

/-- Unary minus. -/
def neg : F32 → F32
  | fin a => fin (-a)
  | pinf => ninf
  | ninf => pinf
  | nan => nan

/-- The sign of a rational as an infinity: the product of an infinity with a
finite value `a`, given the result for positive `a`. -/
def infTimes (pos : F32) (a : ℚ) : F32 :=
  if a = 0 then nan else if 0 < a then pos else neg pos

/-- Multiplication: NaN is absorbing, zero times an infinity is NaN. -/
def mul : F32 → F32 → F32
  | nan, _ => nan
  | _, nan => nan
  | fin a, fin b => fin (a * b)
  | fin a, pinf => infTimes pinf a
  | fin a, ninf => infTimes ninf a
  | pinf, fin b => infTimes pinf b
  | ninf, fin b => infTimes ninf b
  | pinf, pinf => pinf
  | pinf, ninf => ninf
  | ninf, pinf => ninf
  | ninf, ninf => pinf

/-- Addition: NaN is absorbing, the sum of opposite infinities is NaN. -/
def add : F32 → F32 → F32
  | nan, _ => nan
  | _, nan => nan
  | fin a, fin b => fin (a + b)
  | fin _, pinf => pinf
  | fin _, ninf => ninf
  | pinf, fin _ => pinf
  | ninf, fin _ => ninf
  | pinf, pinf => pinf
  | pinf, ninf => nan
  | ninf, pinf => nan
  | ninf, ninf => ninf

/-- Absolute value, `fabsf`. -/
def abs : F32 → F32
  | fin a => fin |a|
  | pinf => pinf
  | ninf => pinf
  | nan => nan

/-- The comparison `a < b`: false as soon as one side is NaN. -/
def blt : F32 → F32 → Bool
  | fin a, fin b => decide (a < b)
  | fin _, pinf => true
  | ninf, fin _ => true
  | ninf, pinf => true
  | _, _ => false

instance : Mul F32 := ⟨mul⟩

instance : Add F32 := ⟨add⟩

instance : Neg F32 := ⟨neg⟩

instance : LT F32 := ⟨fun a b => blt a b = true⟩

instance (a b : F32) : Decidable (a < b) := inferInstanceAs (Decidable (blt a b = true))

instance (n : Nat) : OfNat F32 n := ⟨fin n⟩

instance : OfScientific F32 := ⟨fun m s e => fin (OfScientific.ofScientific m s e)⟩

end F32

/-! ## glm::vec3 -/

/-- Three-component vector `glm::vec3`. -/
structure Vec3 where
  x : F32
  y : F32
  z : F32
deriving DecidableEq

namespace Vec3

/-- The one-argument constructor `glm::vec3(s)`: all components equal to `s`. -/
def splat (s : F32) : Vec3 := ⟨s, s, s⟩

/-- Component-wise sum, `operator+` of `glm::vec3`. -/
def add (a b : Vec3) : Vec3 := ⟨a.x + b.x, a.y + b.y, a.z + b.z⟩

/-- Multiplication of every component by a scalar, `operator*=` with a float. -/
def scale (v : Vec3) (s : F32) : Vec3 := ⟨v.x * s, v.y * s, v.z * s⟩

instance : Add Vec3 := ⟨add⟩

/-- The squared length `dot(v, v)`.  The length of `v` is the non-negative
number whose square this is. -/
def lengthSq (v : Vec3) : F32 := v.x * v.x + v.y * v.y + v.z * v.z

end Vec3

/-! ## The engine, as far as `Update` consumes it -/

/-- Key codes of GLFW (`GLFW/glfw3.h`). -/
def GLFW_KEY_A : Int := 65

/-- Key code of the D key. -/
def GLFW_KEY_D : Int := 68

/-- Key code of the S key. -/
def GLFW_KEY_S : Int := 83

/-- Key code of the W key. -/
def GLFW_KEY_W : Int := 87

/-- Button code of the left mouse button. -/
def GLFW_MOUSE_BUTTON_LEFT : Int := 0

/-- The state polled through `InputEngine`: which keys and which mouse buttons
are down in the current frame. -/
structure InputEngine where
  keys : Int → Bool
  mouseButtons : Int → Bool

/-- The call `InputEngine::IsKeyDown(key)`. -/
def InputEngine.IsKeyDown (input : InputEngine) (key : Int) : Bool := input.keys key

/-- The call `InputEngine::IsMouseButtonDown(button)`. -/
def InputEngine.IsMouseButtonDown (input : InputEngine) (button : Int) : Bool :=
  input.mouseButtons button

/-- The part of `Application::Get()` that `Update` reads. -/
structure Application where
  IsFocused : Bool

/-- Modelled from the spec: the engine class `Gameplay::Physics::RigidBody` is
not among the sources.  The spec says of it only that it holds physics state
and "accepts impulses", so a rigid body is the list of the impulses it has been
given, oldest first. -/
structure RigidBody where
  impulses : List Vec3
deriving DecidableEq

/-- Modelled from the spec: the engine class `Gameplay::GameObject` is not
among the sources.  Of its transform only the position is used by the
component; `rigidBody` is the result of `Get<RigidBody>()`, `none` for the null
pointer returned when no such component is attached. -/
structure GameObject where
  position : Vec3
  rigidBody : Option RigidBody
deriving DecidableEq

/-- Identity of a game object on the heap. -/
abbrev ObjId := Nat

/-- The calls that `Update` makes on engine objects, with their arguments. -/
inductive Call where
  | ApplyImpulse (obj : ObjId) (v : Vec3)
  | SetPostion (obj : ObjId) (p : Vec3)
deriving DecidableEq

/-- The mutable world that a component update runs in: the heap of game
objects and the log of engine calls made so far. -/
structure World where
  objects : ObjId → GameObject
  calls : List Call

/-- The call `obj->GetPosition()`. -/
def World.GetPosition (w : World) (obj : ObjId) : Vec3 := (w.objects obj).position

/-- The call `obj->Get<RigidBody>()`. -/
def World.GetRigidBody (w : World) (obj : ObjId) : Option RigidBody :=
  (w.objects obj).rigidBody

/-- The call `obj->SetPostion(p)`: overwrites the position of `obj`. -/
def World.SetPostion (w : World) (obj : ObjId) (p : Vec3) : World :=
  { objects := Function.update w.objects obj { w.objects obj with position := p }
    calls := w.calls ++ [Call.SetPostion obj p] }

/-- The call `physics->ApplyImpulse(v)` on the rigid body `body` of `obj`: the
body records the impulse; the position of the object is not touched. -/
def World.ApplyImpulse (w : World) (obj : ObjId) (body : RigidBody) (v : Vec3) : World :=
  { objects := Function.update w.objects obj
      { w.objects obj with rigidBody := some ⟨body.impulses ++ [v]⟩ }
    calls := w.calls ++ [Call.ApplyImpulse obj v] }

/-- A JSON document, `nlohmann::json`. -/
inductive Json where
  | null
  | bool (b : Bool)
  | number (q : ℚ)
  | string (s : String)
  | array (items : List Json)
  | object (members : List (String × Json))

/-! ## SimplePlayerControl -/

/-- The data members of `SimplePlayerControl` (SimplePlayerControl.h:30-33). -/
structure SimplePlayerControl where
  _moveSpeed : F32
  cameraAttached : Option ObjId
deriving DecidableEq

namespace SimplePlayerControl

/-- The constructor (SimplePlayerControl.cpp:16-18): `_moveSpeed(3.0f)`, the
camera pointer default-initialised to null. -/
def new : SimplePlayerControl := { _moveSpeed := 3, cameraAttached := none }

/-- The method `setCamera` (SimplePlayerControl.cpp:22-25). -/
def setCamera (self : SimplePlayerControl) (cam : Option ObjId) : SimplePlayerControl :=
  { self with cameraAttached := cam }

/-- The local `_moveVector` of `Update` as it stands after line 51
(SimplePlayerControl.cpp:35-51): zero, overwritten by the A branch, overwritten
by the D branch, z cleared, multiplied by `deltaTime`. -/
def moveVector (input : InputEngine) (deltaTime : F32) : Vec3 :=
  let v0 := Vec3.splat 0
  let v1 := if input.IsKeyDown GLFW_KEY_A then Vec3.mk 3 0 0 else v0
  let v2 := if input.IsKeyDown GLFW_KEY_D then Vec3.mk (-3) 0 0 else v1
  let v3 := { v2 with z := 0 }
  v3.scale deltaTime

/-- The method `Update` (SimplePlayerControl.cpp:27-62).  `owner` is the game
object returned by `GetGameObject()`.  The result is the component after the
call and the world after the call.  The test of the left mouse button on line
32 guards an empty block and is not represented. -/
def Update (self : SimplePlayerControl) (owner : ObjId) (app : Application)
    (input : InputEngine) (deltaTime : F32) (w : World) : SimplePlayerControl × World :=
  if app.IsFocused then
    let physics := w.GetRigidBody owner
    let _moveVector := moveVector input deltaTime
    match physics with
    | some body => (self, w.ApplyImpulse owner body _moveVector)
    | none => (self, w.SetPostion owner (w.GetPosition owner + _moveVector))
  else
    (self, w)

/-- The method `ToJson` (SimplePlayerControl.cpp:70-73): `return {};`, the
default-constructed document, which is JSON null. -/
def ToJson (_self : SimplePlayerControl) : Json := Json.null

/-- The static method `FromJson` (SimplePlayerControl.cpp:75-79):
`std::make_shared<SimplePlayerControl>()`; the blob is not read. -/
def FromJson (_blob : Json) : SimplePlayerControl := new

end SimplePlayerControl

/-- The public operations that change or use a live component: `setCamera` and
the per-frame `Update`. -/
inductive MethodCall where
  | setCamera (cam : Option ObjId)
  | Update (owner : ObjId) (app : Application) (input : InputEngine) (deltaTime : F32)

/-- A sequence of method calls on one component, in order. -/
def runCalls : List MethodCall → SimplePlayerControl × World → SimplePlayerControl × World
  | [], s => s
  | MethodCall.setCamera cam :: cs, s => runCalls cs (s.1.setCamera cam, s.2)
  | MethodCall.Update owner app input dt :: cs, s =>
      runCalls cs (SimplePlayerControl.Update s.1 owner app input dt s.2)

/-- One frame as the host presents it to the component: focus flag, polled
input and elapsed time. -/
structure Frame where
  app : Application
  input : InputEngine
  deltaTime : F32

/-- The host calling `Update` once per frame, in order, on the same component
and owner. -/
def runFrames (owner : ObjId) :
    List Frame → SimplePlayerControl × World → SimplePlayerControl × World
  | [], s => s
  | f :: fs, s =>
      runFrames owner fs (SimplePlayerControl.Update s.1 owner f.app f.input f.deltaTime s.2)

/-! ## The scene builder `DefaultSceneLayer::_CreateScene`

Of the scene only what the game objects are is represented: their names,
positions, attached component types and the parent/child links.  Shaders,
textures, meshes, materials, rotations, scales, collider shapes and particle
emitter settings are set through calls that touch none of these and are left
out. -/

/-- The two values of the engine enumeration `RigidBodyType` that the scene
builder uses. -/
inductive RigidBodyType where
  | Static
  | Dynamic
deriving DecidableEq

/-- The component types that can sit on a game object; `Other` stands for any
engine component type that the scene builder itself never adds. -/
inductive Component where
  | Camera
  | Light
  | RenderComponent
  | RigidBody (type : RigidBodyType)
  | JumpBehaviour
  | TriggerVolume
  | ParticleSystem
  | ShadowCamera
  | SimplePlayerControl
  | Other (typeName : String)
deriving DecidableEq

/-- Modelled from the spec: the engine class `Gameplay::GameObject` is not
among the sources.  Following the spec's data model a game object is an
identity (its name and heap address), a transform (here its position), the
components attached to it in order of attachment, a non-owning back-reference
to its parent and the list of its children. -/
structure SceneObject where
  name : String
  position : Vec3
  components : List Component
  parent : Option ObjId
  children : List ObjId
deriving DecidableEq

/-- Modelled from the spec: the engine class `Gameplay::Scene` is not among the
sources.  A scene is a heap of game objects, of which the identifiers below
`count` are in use, and the game object of its main camera. -/
structure Scene where
  objects : ObjId → SceneObject
  count : Nat
  MainCamera : ObjId

namespace Scene

/-- The call `scene->CreateGameObject(name)`: a new object at the next free
identifier, at the origin, without components, parent or children. -/
def CreateGameObject (s : Scene) (name : String) : ObjId × Scene :=
  (s.count,
    { s with
      objects := Function.update s.objects s.count
        { name := name, position := Vec3.splat 0, components := [], parent := none,
          children := [] }
      count := s.count + 1 })

/-- The call `obj->GetPosition()`. -/
def GetPosition (s : Scene) (obj : ObjId) : Vec3 := (s.objects obj).position

/-- The call `obj->SetPostion(p)`. -/
def SetPostion (s : Scene) (obj : ObjId) (p : Vec3) : Scene :=
  { s with objects := Function.update s.objects obj { s.objects obj with position := p } }

/-- The call `obj->Add<T>(...)`: attaches one more component to `obj`. -/
def Add (s : Scene) (obj : ObjId) (c : Component) : Scene :=
  { s with
    objects := Function.update s.objects obj
      { s.objects obj with components := (s.objects obj).components ++ [c] } }

/-- The parent link written by `AddChild`. -/
def setParent (s : Scene) (child parent : ObjId) : Scene :=
  { s with
    objects := Function.update s.objects child { s.objects child with parent := some parent } }

/-- The child entry written by `AddChild`. -/
def pushChild (s : Scene) (parent child : ObjId) : Scene :=
  { s with
    objects := Function.update s.objects parent
      { s.objects parent with children := (s.objects parent).children ++ [child] } }

/-- Modelled from the spec: the call `parent->AddChild(child)` of the engine.
The spec describes a hierarchy with a back-reference to the parent and owning
references to the children: the child records its parent and the parent
appends the child to its children. -/
def AddChild (s : Scene) (parent child : ObjId) : Scene :=
  (s.setParent child parent).pushChild parent child

end Scene

namespace DefaultSceneLayer

/-- The `GameObject::Sptr` locals of `_CreateScene` other than the three lights
declared inside the loop. -/
structure Handles where
  lightParent : ObjId
  camera : ObjId
  platform1 : ObjId
  mainChar : ObjId
  particlesMC : ObjId
  ball : ObjId
  particlesBall : ObjId
  backgroundScene : ObjId
  winScene : ObjId
  loseScene : ObjId
  shadowCaster : ObjId
  particles : ObjId

/-- The body of the loop `for (int ix = 0; ix < 1; ix++)`
(DefaultSceneLayer.cpp:408-433). -/
def lightLoopBody (lightParent : ObjId) (scene : Scene) : Scene :=
  let (light, scene) := scene.CreateGameObject "Light"
  let scene := scene.SetPostion light ⟨-5.5, -1.58, 4.1⟩
  let scene := scene.AddChild lightParent light
  let scene := scene.Add light Component.Light
  let (light2, scene) := scene.CreateGameObject "Light2"
  let scene := scene.SetPostion light2 ⟨0.14, -3.32, 3.26⟩
  let scene := scene.AddChild lightParent light2
  let scene := scene.Add light2 Component.Light
  let (light3, scene) := scene.CreateGameObject "Light3"
  let scene := scene.SetPostion light3 ⟨5.93, -1.86, 4.76⟩
  let scene := scene.AddChild lightParent light3
  scene.Add light3 Component.Light

/-- The game objects of `_CreateScene` up to the lose check
(DefaultSceneLayer.cpp:405-690).  The argument is the scene as
`std::make_shared<Scene>()` left it. -/
def buildObjects (scene : Scene) : Handles × Scene :=
  let (lightParent, scene) := scene.CreateGameObject "Lights"
  let scene := (List.range 1).foldl (fun sc _ix => lightLoopBody lightParent sc) scene
  let camera := scene.MainCamera
  let scene := scene.SetPostion camera ⟨0, -4.750, 4⟩
  let (platform1, scene) := scene.CreateGameObject "platform1"
  let scene := scene.SetPostion platform1 ⟨0, 0, 0⟩
  let scene := scene.Add platform1 (Component.RigidBody RigidBodyType.Static)
  let scene := scene.Add platform1 Component.RenderComponent
  let (mainChar, scene) := scene.CreateGameObject "main char"
  let scene := scene.SetPostion mainChar ⟨-5.43, -0.23, 2.5⟩
  let scene := scene.Add mainChar Component.RenderComponent
  let scene := scene.Add mainChar (Component.RigidBody RigidBodyType.Dynamic)
  let scene := scene.Add mainChar Component.JumpBehaviour
  let scene := scene.Add mainChar Component.TriggerVolume
  let (particlesMC, scene) := scene.CreateGameObject "Particles"
  let scene := scene.AddChild mainChar particlesMC
  let scene := scene.Add particlesMC Component.ParticleSystem
  let (ball, scene) := scene.CreateGameObject "ball"
  let scene := scene.SetPostion ball ⟨2.5, -0.23, 5.3⟩
  let scene := scene.Add ball Component.RenderComponent
  let scene := scene.Add ball (Component.RigidBody RigidBodyType.Dynamic)
  let scene := scene.Add ball Component.TriggerVolume
  let (particlesBall, scene) := scene.CreateGameObject "Particles"
  let scene := scene.AddChild mainChar particlesBall
  let scene := scene.Add particlesBall Component.ParticleSystem
  let (backgroundScene, scene) := scene.CreateGameObject "background"
  let scene := scene.SetPostion backgroundScene ⟨0.33, 3.54, 0⟩
  let scene := scene.Add backgroundScene Component.RenderComponent
  let (winScene, scene) := scene.CreateGameObject "win"
  let scene := scene.SetPostion winScene ⟨0, -2.73, -4⟩
  let scene := scene.Add winScene Component.RenderComponent
  let (loseScene, scene) := scene.CreateGameObject "lose"
  let scene := scene.SetPostion loseScene ⟨0, -2.73, -4⟩
  let scene := scene.Add loseScene Component.RenderComponent
  let (shadowCaster, scene) := scene.CreateGameObject "Shadow Light"
  let scene := scene.SetPostion shadowCaster ⟨-35.4, -20.47, 13.020⟩
  let scene := scene.Add shadowCaster Component.ShadowCamera
  let (particles, scene) := scene.CreateGameObject "Particles"
  let scene := scene.SetPostion particles ⟨2.75, 3.31, 4.85⟩
  let scene := scene.Add particles Component.ParticleSystem
  ({ lightParent := lightParent, camera := camera, platform1 := platform1,
     mainChar := mainChar, particlesMC := particlesMC, ball := ball,
     particlesBall := particlesBall, backgroundScene := backgroundScene,
     winScene := winScene, loseScene := loseScene, shadowCaster := shadowCaster,
     particles := particles }, scene)

/-- The lose check (DefaultSceneLayer.cpp:692-696) on the scene `scene` with
the locals `h`: the scene after it and what it wrote to `std::cout`. -/
def loseCheck (h : Handles) (scene : Scene) : Scene × List String :=
  if (scene.GetPosition h.mainChar).z < 0 then
    (scene.SetPostion h.loseScene ⟨0, -2.73, 4⟩, ["lose"])
  else
    (scene, [])

/-- The else branch of `_CreateScene` (DefaultSceneLayer.cpp:92-709), which is
the one taken since `loadScene` is the constant `false`: the scene passed to
`app.LoadScene(scene)` and the text written to `std::cout`. -/
def _CreateScene (scene : Scene) : Scene × List String :=
  loseCheck (buildObjects scene).1 (buildObjects scene).2

end DefaultSceneLayer

/-- The scene whose only object is a camera object: the least that
`std::make_shared<Scene>()` must provide for `scene->MainCamera` to be usable. -/
def cameraOnlyScene : Scene :=
  { objects := fun _ =>
      { name := "Main Camera", position := ⟨0, 0, 0⟩, components := [Component.Camera],
        parent := none, children := [] }
    count := 1
    MainCamera := 0 }

/-! ## Concrete inputs used to exercise the model -/

/-- An input state in which exactly the keys of the list are down and no mouse
button is. -/
def keysDown (ks : List Int) : InputEngine :=
  { keys := fun k => decide (k ∈ ks), mouseButtons := fun _ => false }

/-- The focused application. -/
def focused : Application := { IsFocused := true }

/-- The application without input focus. -/
def unfocused : Application := { IsFocused := false }

/-- A world whose objects all sit at the origin without a rigid body. -/
def plainWorld : World :=
  { objects := fun _ => { position := ⟨0, 0, 0⟩, rigidBody := none }, calls := [] }

/-- A world whose objects all sit at the origin and carry a fresh rigid body. -/
def physicsWorld : World :=
  { objects := fun _ => { position := ⟨0, 0, 0⟩, rigidBody := some ⟨[]⟩ }, calls := [] }

/-! ## Basic facts -/

open SimplePlayerControl

theorem Vec3.add_def (a b : Vec3) : a + b = ⟨a.x + b.x, a.y + b.y, a.z + b.z⟩ := rfl

namespace F32

theorem zero_def : (0 : F32) = fin 0 := by
  show fin ((0 : ℕ) : ℚ) = fin 0
  simp

theorem ofNat_def (n : ℕ) : (OfNat.ofNat n : F32) = fin (n : ℚ) := rfl

theorem ofScientific_def (m : ℕ) (s : Bool) (e : ℕ) :
    (OfScientific.ofScientific m s e : F32) = fin (OfScientific.ofScientific m s e) := rfl

theorem fin_mul_fin (a b : ℚ) : fin a * fin b = fin (a * b) := rfl

theorem mul_def (a b : F32) : a * b = mul a b := rfl

theorem add_eq (a b : F32) : a + b = add a b := rfl

theorem neg_def (a : F32) : -a = neg a := rfl

theorem lt_def (a b : F32) : (a < b) = (blt a b = true) := rfl

theorem exists_of_isFinite {a : F32} (h : a.isFinite = true) : ∃ q, a = fin q := by
  cases a with
  | fin q => exact ⟨q, rfl⟩
  | pinf => simp [isFinite] at h
  | ninf => simp [isFinite] at h
  | nan => simp [isFinite] at h

/-- Zero times a finite value is zero; for an infinity or NaN it is NaN. -/
theorem zero_mul_of_isFinite {a : F32} (h : a.isFinite = true) : (0 : F32) * a = 0 := by
  obtain ⟨q, rfl⟩ := exists_of_isFinite h
  rw [zero_def, fin_mul_fin, zero_mul]

theorem add_zero_fin (a : F32) : a + 0 = a := by
  rw [zero_def]
  cases a <;> simp [add_eq, add]

/-- The literal 2.5 is not below zero. -/
theorem not_lt_zero_2_5 : ¬ ((2.5 : F32) < 0) := by
  rw [lt_def, zero_def, ofScientific_def]
  simp only [blt, decide_eq_true_eq]
  norm_num

end F32

/-- The vector after the D branch, for every dt: the y and z components are the
products `0 * dt`. -/
theorem moveVector_D_raw (input : InputEngine) (dt : F32)
    (hD : input.IsKeyDown GLFW_KEY_D = true) :
    moveVector input dt = ⟨-3 * dt, 0 * dt, 0 * dt⟩ := by
  simp [moveVector, hD, Vec3.scale]

theorem moveVector_A_raw (input : InputEngine) (dt : F32)
    (hA : input.IsKeyDown GLFW_KEY_A = true) (hD : input.IsKeyDown GLFW_KEY_D = false) :
    moveVector input dt = ⟨3 * dt, 0 * dt, 0 * dt⟩ := by
  simp [moveVector, hA, hD, Vec3.scale]

theorem moveVector_none_raw (input : InputEngine) (dt : F32)
    (hA : input.IsKeyDown GLFW_KEY_A = false) (hD : input.IsKeyDown GLFW_KEY_D = false) :
    moveVector input dt = ⟨0 * dt, 0 * dt, 0 * dt⟩ := by
  simp [moveVector, hA, hD, Vec3.scale, Vec3.splat]

theorem moveVector_D (input : InputEngine) (dt : F32) (hfin : dt.isFinite = true)
    (hD : input.IsKeyDown GLFW_KEY_D = true) :
    moveVector input dt = ⟨-3 * dt, 0, 0⟩ := by
  rw [moveVector_D_raw input dt hD, F32.zero_mul_of_isFinite hfin]

theorem moveVector_A (input : InputEngine) (dt : F32) (hfin : dt.isFinite = true)
    (hA : input.IsKeyDown GLFW_KEY_A = true) (hD : input.IsKeyDown GLFW_KEY_D = false) :
    moveVector input dt = ⟨3 * dt, 0, 0⟩ := by
  rw [moveVector_A_raw input dt hA hD, F32.zero_mul_of_isFinite hfin]

theorem moveVector_none (input : InputEngine) (dt : F32) (hfin : dt.isFinite = true)
    (hA : input.IsKeyDown GLFW_KEY_A = false) (hD : input.IsKeyDown GLFW_KEY_D = false) :
    moveVector input dt = ⟨0, 0, 0⟩ := by
  rw [moveVector_none_raw input dt hA hD, F32.zero_mul_of_isFinite hfin]

theorem Vec3.add_zero (p : Vec3) : p + ⟨0, 0, 0⟩ = p := by
  rw [Vec3.add_def]
  simp [F32.add_zero_fin]

theorem Update_body (self : SimplePlayerControl) (owner : ObjId) (app : Application)
    (input : InputEngine) (dt : F32) (w : World) (body : RigidBody)
    (hf : app.IsFocused = true) (hb : w.GetRigidBody owner = some body) :
    Update self owner app input dt w
      = (self, w.ApplyImpulse owner body (moveVector input dt)) := by
  simp [Update, hf, hb]

theorem Update_nobody (self : SimplePlayerControl) (owner : ObjId) (app : Application)
    (input : InputEngine) (dt : F32) (w : World)
    (hf : app.IsFocused = true) (hb : w.GetRigidBody owner = none) :
    Update self owner app input dt w
      = (self, w.SetPostion owner (w.GetPosition owner + moveVector input dt)) := by
  simp [Update, hf, hb]

theorem moveVector_y (input : InputEngine) (dt : F32) (hfin : dt.isFinite = true) :
    (moveVector input dt).y = 0 := by
  unfold moveVector
  by_cases hA : input.IsKeyDown GLFW_KEY_A = true <;>
    by_cases hD : input.IsKeyDown GLFW_KEY_D = true <;>
    simp [hA, hD, Vec3.scale, Vec3.splat, F32.zero_mul_of_isFinite hfin]

theorem moveVector_z (input : InputEngine) (dt : F32) (hfin : dt.isFinite = true) :
    (moveVector input dt).z = 0 := by
  simp [moveVector, Vec3.scale, F32.zero_mul_of_isFinite hfin]

theorem Update_fst (self : SimplePlayerControl) (owner : ObjId) (app : Application)
    (input : InputEngine) (dt : F32) (w : World) :
    (Update self owner app input dt w).1 = self := by
  cases hf : app.IsFocused
  · simp [Update, hf]
  · cases hb : w.GetRigidBody owner <;> simp [Update, hf, hb]

theorem runFrames_fst (owner : ObjId) (frames : List Frame) :
    ∀ s : SimplePlayerControl × World, (runFrames owner frames s).1 = s.1 := by
  induction frames with
  | nil => intro s; rfl
  | cons f fs ih =>
    intro s
    rw [runFrames, ih, Update_fst]

theorem GetPosition_SetPostion_ne (w : World) (owner obj : ObjId) (p : Vec3)
    (h : obj ≠ owner) : (w.SetPostion owner p).GetPosition obj = w.GetPosition obj := by
  simp [World.SetPostion, World.GetPosition, Function.update_noteq h]

theorem GetPosition_SetPostion_self (w : World) (owner : ObjId) (p : Vec3) :
    (w.SetPostion owner p).GetPosition owner = p := by
  simp [World.SetPostion, World.GetPosition]

theorem Update_plainWorld_position (self : SimplePlayerControl) (owner : ObjId)
    (input : InputEngine) (dt : F32) :
    (Update self owner focused input dt plainWorld).2.GetPosition owner
      = ⟨0, 0, 0⟩ + moveVector input dt := by
  rw [Update_nobody self owner focused input dt plainWorld rfl rfl,
    GetPosition_SetPostion_self]
  rfl

theorem runCalls_moveSpeed (calls : List MethodCall) :
    ∀ s : SimplePlayerControl × World, (runCalls calls s).1._moveSpeed = s.1._moveSpeed := by
  induction calls with
  | nil => intro s; rfl
  | cons c cs ih =>
    intro s
    cases c with
    | setCamera cam => rw [runCalls, ih]; rfl
    | Update owner app input dt => rw [runCalls, ih, Update_fst]

/-! ## Single keys -/

/-- C1 (as stated, refuted): focused, key A alone, dt = +infinity, owner with a
rigid body.  The one impulse submitted is (inf, NaN, NaN): the y and z
components are 0 * inf, so the vector is not (3*dt, 0, 0). -/
theorem Update_A_alone_infinite_dt :
    focused.IsFocused = true ∧
    (keysDown [GLFW_KEY_A]).IsKeyDown GLFW_KEY_A = true ∧
    (keysDown [GLFW_KEY_A]).IsKeyDown GLFW_KEY_D = false ∧
    moveVector (keysDown [GLFW_KEY_A]) F32.pinf = ⟨F32.pinf, F32.nan, F32.nan⟩ ∧
    (Update new 0 focused (keysDown [GLFW_KEY_A]) F32.pinf physicsWorld).2.calls
      = [Call.ApplyImpulse 0 ⟨F32.pinf, F32.nan, F32.nan⟩] ∧
    moveVector (keysDown [GLFW_KEY_A]) F32.pinf ≠ ⟨3 * F32.pinf, 0, 0⟩ := by
  have hv : moveVector (keysDown [GLFW_KEY_A]) F32.pinf = ⟨F32.pinf, F32.nan, F32.nan⟩ := by
    rw [moveVector_A_raw _ _ (by decide) (by decide)]
    simp [F32.ofNat_def, F32.mul_def, F32.mul, F32.infTimes]
  refine ⟨rfl, by decide, by decide, hv, ?_, ?_⟩
  · rw [Update_body new 0 focused _ F32.pinf physicsWorld ⟨[]⟩ rfl rfl, hv]
    rfl
  · rw [hv]
    simp [F32.ofNat_def]

/-- C1 (amended): focused, key A down and key D up: for every finite dt the
vector that Update submits as impulse (rigid body present) or adds to the
position (no rigid body) is exactly (3*dt, 0, 0). -/
theorem Update_A_alone (self : SimplePlayerControl) (owner : ObjId) (app : Application)
    (input : InputEngine) (dt : F32) (w : World)
    (hfin : dt.isFinite = true)
    (hf : app.IsFocused = true)
    (hA : input.IsKeyDown GLFW_KEY_A = true) (hD : input.IsKeyDown GLFW_KEY_D = false) :
    (∀ body, w.GetRigidBody owner = some body →
        Update self owner app input dt w
          = (self, w.ApplyImpulse owner body ⟨3 * dt, 0, 0⟩)) ∧
    (w.GetRigidBody owner = none →
        Update self owner app input dt w
          = (self, w.SetPostion owner (w.GetPosition owner + ⟨3 * dt, 0, 0⟩))) := by
  refine ⟨fun body hb => ?_, fun hb => ?_⟩
  · rw [Update_body self owner app input dt w body hf hb, moveVector_A input dt hfin hA hD]
  · rw [Update_nobody self owner app input dt w hf hb, moveVector_A input dt hfin hA hD]

theorem Update_A_alone_witness :
    (F32.fin (1 / 60)).isFinite = true ∧
    focused.IsFocused = true ∧
    (keysDown [GLFW_KEY_A]).IsKeyDown GLFW_KEY_A = true ∧
    (keysDown [GLFW_KEY_A]).IsKeyDown GLFW_KEY_D = false ∧
    plainWorld.GetRigidBody 0 = none ∧
    Update new 0 focused (keysDown [GLFW_KEY_A]) (F32.fin (1 / 60)) plainWorld
      = (new, plainWorld.SetPostion 0 (plainWorld.GetPosition 0 + ⟨3 * (F32.fin (1 / 60)), 0, 0⟩)) :=
  ⟨rfl, rfl, by decide, by decide, rfl,
    (Update_A_alone new 0 focused (keysDown [GLFW_KEY_A]) (F32.fin (1 / 60)) plainWorld
      rfl rfl (by decide) (by decide)).2 rfl⟩

/-- C2 (as stated, refuted): focused, key D down, dt = +infinity, owner without
a rigid body at the origin.  The vector added is (-inf, NaN, NaN), not
(-3*dt, 0, 0), and the owner ends at (-inf, NaN, NaN). -/
theorem Update_D_down_infinite_dt :
    focused.IsFocused = true ∧
    (keysDown [GLFW_KEY_D]).IsKeyDown GLFW_KEY_D = true ∧
    moveVector (keysDown [GLFW_KEY_D]) F32.pinf = ⟨F32.ninf, F32.nan, F32.nan⟩ ∧
    (Update new 0 focused (keysDown [GLFW_KEY_D]) F32.pinf plainWorld).2.GetPosition 0
      = ⟨F32.ninf, F32.nan, F32.nan⟩ ∧
    moveVector (keysDown [GLFW_KEY_D]) F32.pinf ≠ ⟨-3 * F32.pinf, 0, 0⟩ := by
  have hv : moveVector (keysDown [GLFW_KEY_D]) F32.pinf = ⟨F32.ninf, F32.nan, F32.nan⟩ := by
    rw [moveVector_D_raw _ _ (by decide)]
    simp [F32.ofNat_def, F32.mul_def, F32.mul, F32.infTimes, F32.neg_def, F32.neg]
  refine ⟨rfl, by decide, hv, ?_, ?_⟩
  · rw [Update_plainWorld_position, hv, Vec3.add_def]
    simp [F32.ofNat_def, F32.add_eq, F32.add]
  · rw [hv]
    simp [F32.ofNat_def]

/-- C2 (amended): focused and key D down (key A up or down): for every finite
dt the vector that Update submits as impulse or adds to the position is exactly
(-3*dt, 0, 0). -/
theorem Update_D_down (self : SimplePlayerControl) (owner : ObjId) (app : Application)
    (input : InputEngine) (dt : F32) (w : World)
    (hfin : dt.isFinite = true)
    (hf : app.IsFocused = true) (hD : input.IsKeyDown GLFW_KEY_D = true) :
    (∀ body, w.GetRigidBody owner = some body →
        Update self owner app input dt w
          = (self, w.ApplyImpulse owner body ⟨-3 * dt, 0, 0⟩)) ∧
    (w.GetRigidBody owner = none →
        Update self owner app input dt w
          = (self, w.SetPostion owner (w.GetPosition owner + ⟨-3 * dt, 0, 0⟩))) := by
  refine ⟨fun body hb => ?_, fun hb => ?_⟩
  · rw [Update_body self owner app input dt w body hf hb, moveVector_D input dt hfin hD]
  · rw [Update_nobody self owner app input dt w hf hb, moveVector_D input dt hfin hD]

theorem Update_D_down_witness :
    (F32.fin (1 / 60)).isFinite = true ∧
    focused.IsFocused = true ∧
    (keysDown [GLFW_KEY_D]).IsKeyDown GLFW_KEY_D = true ∧
    physicsWorld.GetRigidBody 0 = some ⟨[]⟩ ∧
    Update new 0 focused (keysDown [GLFW_KEY_D]) (F32.fin (1 / 60)) physicsWorld
      = (new, physicsWorld.ApplyImpulse 0 ⟨[]⟩ ⟨-3 * (F32.fin (1 / 60)), 0, 0⟩) :=
  ⟨rfl, rfl, by decide, rfl,
    (Update_D_down new 0 focused (keysDown [GLFW_KEY_D]) (F32.fin (1 / 60)) physicsWorld
      rfl rfl (by decide)).1 ⟨[]⟩ rfl⟩

/-! ## Impulse or position -/

/-- C5: when the application is not focused, Update returns the component and
the world exactly as they were: no engine call, no impulse, no position change,
no change of the component's fields, whatever dt, keys and rigid body. -/
theorem Update_unfocused (self : SimplePlayerControl) (owner : ObjId) (app : Application)
    (input : InputEngine) (dt : F32) (w : World) (hf : app.IsFocused = false) :
    Update self owner app input dt w = (self, w) := by
  simp [Update, hf]

theorem Update_unfocused_witness :
    unfocused.IsFocused = false ∧
    Update (new.setCamera (some 1)) 0 unfocused (keysDown [GLFW_KEY_A, GLFW_KEY_D]) 1
        physicsWorld
      = (new.setCamera (some 1), physicsWorld) :=
  ⟨rfl, Update_unfocused (new.setCamera (some 1)) 0 unfocused
    (keysDown [GLFW_KEY_A, GLFW_KEY_D]) 1 physicsWorld rfl⟩

/-! ## Both keys, other keys -/

/-- C6 (as stated, refuted): focused, A and D both down, dt = 1, no rigid body,
owner at the origin.  The movement vector is (-3, 0, 0), not the sum
(3,0,0) + (-3,0,0) scaled by dt, and the owner ends at (-3, 0, 0), not where it
started. -/
theorem Update_both_keys_not_sum :
    focused.IsFocused = true ∧
    (keysDown [GLFW_KEY_A, GLFW_KEY_D]).IsKeyDown GLFW_KEY_A = true ∧
    (keysDown [GLFW_KEY_A, GLFW_KEY_D]).IsKeyDown GLFW_KEY_D = true ∧
    moveVector (keysDown [GLFW_KEY_A, GLFW_KEY_D]) 1 = ⟨-3, 0, 0⟩ ∧
    moveVector (keysDown [GLFW_KEY_A, GLFW_KEY_D]) 1
      ≠ (Vec3.mk 3 0 0 + Vec3.mk (-3) 0 0).scale 1 ∧
    moveVector (keysDown [GLFW_KEY_A, GLFW_KEY_D]) 1 ≠ ⟨0, 0, 0⟩ ∧
    (Update new 0 focused (keysDown [GLFW_KEY_A, GLFW_KEY_D]) 1 plainWorld).2.GetPosition 0
      = ⟨-3, 0, 0⟩ ∧
    plainWorld.GetPosition 0 = ⟨0, 0, 0⟩ := by
  have hD : (keysDown [GLFW_KEY_A, GLFW_KEY_D]).IsKeyDown GLFW_KEY_D = true := by decide
  have hv : moveVector (keysDown [GLFW_KEY_A, GLFW_KEY_D]) 1 = ⟨-3, 0, 0⟩ := by
    rw [moveVector_D _ 1 rfl hD]
    simp [F32.ofNat_def, F32.mul_def, F32.mul, F32.neg_def, F32.neg]
  refine ⟨rfl, by decide, hD, hv, ?_, ?_, ?_, rfl⟩
  · rw [hv, Vec3.add_def]
    simp [Vec3.scale, F32.ofNat_def, F32.mul_def, F32.mul, F32.add_eq, F32.add,
      F32.neg_def, F32.neg]
  · rw [hv]
    simp [F32.ofNat_def, F32.neg_def, F32.neg]
  · rw [Update_plainWorld_position, hv, Vec3.add_def]
    simp [F32.ofNat_def, F32.add_eq, F32.add, F32.neg_def, F32.neg]

/-- C6 (amended): focused, A and D both down: the D assignment overwrites the A
assignment, so for every finite dt the movement vector submitted as impulse or
added to the position is (-3*dt, 0, 0); it is the zero vector exactly when
dt = 0. -/
theorem Update_both_keys (self : SimplePlayerControl) (owner : ObjId) (app : Application)
    (input : InputEngine) (dt : F32) (w : World)
    (hfin : dt.isFinite = true)
    (hf : app.IsFocused = true)
    (hA : input.IsKeyDown GLFW_KEY_A = true) (hD : input.IsKeyDown GLFW_KEY_D = true) :
    moveVector input dt = ⟨-3 * dt, 0, 0⟩ ∧
    (moveVector input dt = ⟨0, 0, 0⟩ ↔ dt = 0) ∧
    (∀ body, w.GetRigidBody owner = some body →
        Update self owner app input dt w
          = (self, w.ApplyImpulse owner body ⟨-3 * dt, 0, 0⟩)) ∧
    (w.GetRigidBody owner = none →
        Update self owner app input dt w
          = (self, w.SetPostion owner (w.GetPosition owner + ⟨-3 * dt, 0, 0⟩))) := by
  have _hA := hA
  have hv := moveVector_D input dt hfin hD
  refine ⟨hv, ?_, fun body hb => ?_, fun hb => ?_⟩
  · rw [hv]
    obtain ⟨q, rfl⟩ := F32.exists_of_isFinite hfin
    simp [F32.ofNat_def, F32.mul_def, F32.mul, F32.neg_def, F32.neg]
  · rw [Update_body self owner app input dt w body hf hb, hv]
  · rw [Update_nobody self owner app input dt w hf hb, hv]

theorem Update_both_keys_witness :
    (F32.fin (1 / 60)).isFinite = true ∧
    focused.IsFocused = true ∧
    (keysDown [GLFW_KEY_A, GLFW_KEY_D]).IsKeyDown GLFW_KEY_A = true ∧
    (keysDown [GLFW_KEY_A, GLFW_KEY_D]).IsKeyDown GLFW_KEY_D = true ∧
    moveVector (keysDown [GLFW_KEY_A, GLFW_KEY_D]) (F32.fin (1 / 60)) = ⟨-3 * (F32.fin (1 / 60)), 0, 0⟩ :=
  ⟨rfl, rfl, by decide, by decide,
    (Update_both_keys new 0 focused (keysDown [GLFW_KEY_A, GLFW_KEY_D]) (F32.fin (1 / 60))
      plainWorld rfl rfl (by decide) (by decide)).1⟩

/-- C7 (the code at the failing inputs): focused, dt = 1, no rigid body, owner
at the origin.  With W alone held, and with S alone held, the movement vector
is the zero vector and the owner stays where it was; A alone and D alone do
move it. -/
theorem Update_W_or_S_alone_no_movement :
    moveVector (keysDown [GLFW_KEY_W]) 1 = ⟨0, 0, 0⟩ ∧
    moveVector (keysDown [GLFW_KEY_S]) 1 = ⟨0, 0, 0⟩ ∧
    (Update new 0 focused (keysDown [GLFW_KEY_W]) 1 plainWorld).2.GetPosition 0
      = plainWorld.GetPosition 0 ∧
    (Update new 0 focused (keysDown [GLFW_KEY_S]) 1 plainWorld).2.GetPosition 0
      = plainWorld.GetPosition 0 ∧
    moveVector (keysDown [GLFW_KEY_A]) 1 = ⟨3, 0, 0⟩ ∧
    moveVector (keysDown [GLFW_KEY_D]) 1 = ⟨-3, 0, 0⟩ := by
  have hW : moveVector (keysDown [GLFW_KEY_W]) 1 = ⟨0, 0, 0⟩ :=
    moveVector_none _ 1 rfl (by decide) (by decide)
  have hS : moveVector (keysDown [GLFW_KEY_S]) 1 = ⟨0, 0, 0⟩ :=
    moveVector_none _ 1 rfl (by decide) (by decide)
  refine ⟨hW, hS, ?_, ?_, ?_, ?_⟩
  · rw [Update_plainWorld_position, hW, Vec3.add_zero]; rfl
  · rw [Update_plainWorld_position, hS, Vec3.add_zero]; rfl
  · rw [moveVector_A _ 1 rfl (by decide) (by decide)]
    simp [F32.ofNat_def, F32.mul_def, F32.mul]
  · rw [moveVector_D _ 1 rfl (by decide)]
    simp [F32.ofNat_def, F32.mul_def, F32.mul, F32.neg_def, F32.neg]

/-! ## Shape of the movement vector, statelessness, camera -/

/-- C8 (as stated, refuted): focused, key A down, dt = -infinity, owner with a
rigid body.  The impulse submitted is (-inf, NaN, NaN): z is cleared before the
multiplication by dt, so the y and z components are 0 * dt = NaN, not 0. -/
theorem Update_vector_not_along_X_infinite_dt :
    focused.IsFocused = true ∧
    (Update new 0 focused (keysDown [GLFW_KEY_A]) F32.ninf physicsWorld).2.calls
      = [Call.ApplyImpulse 0 ⟨F32.ninf, F32.nan, F32.nan⟩] ∧
    (moveVector (keysDown [GLFW_KEY_A]) F32.ninf).y = F32.nan ∧
    (moveVector (keysDown [GLFW_KEY_A]) F32.ninf).z = F32.nan ∧
    (moveVector (keysDown [GLFW_KEY_A]) F32.ninf).y ≠ 0 ∧
    (moveVector (keysDown [GLFW_KEY_A]) F32.ninf).z ≠ 0 := by
  have hv : moveVector (keysDown [GLFW_KEY_A]) F32.ninf = ⟨F32.ninf, F32.nan, F32.nan⟩ := by
    rw [moveVector_A_raw _ _ (by decide) (by decide)]
    simp [F32.ofNat_def, F32.mul_def, F32.mul, F32.infTimes, F32.neg]
  refine ⟨rfl, ?_, ?_, ?_, ?_, ?_⟩
  · rw [Update_body new 0 focused _ F32.ninf physicsWorld ⟨[]⟩ rfl rfl, hv]
    rfl
  · rw [hv]
  · rw [hv]
  · rw [hv]; simp [F32.ofNat_def]
  · rw [hv]; simp [F32.ofNat_def]

/-- C8 (amended): focused, for every finite dt, key state and rigid-body
presence: the vector that Update submits as impulse, or adds to the position,
has y-component 0 and z-component 0; without a rigid body the owner keeps its y
and z coordinates. -/
theorem Update_vector_along_X (self : SimplePlayerControl) (owner : ObjId)
    (app : Application) (input : InputEngine) (dt : F32) (w : World)
    (hfin : dt.isFinite = true)
    (hf : app.IsFocused = true) :
    ∃ v : Vec3, v.y = 0 ∧ v.z = 0 ∧
      (∀ body, w.GetRigidBody owner = some body →
          Update self owner app input dt w = (self, w.ApplyImpulse owner body v)) ∧
      (w.GetRigidBody owner = none →
          Update self owner app input dt w
            = (self, w.SetPostion owner (w.GetPosition owner + v)) ∧
          ((Update self owner app input dt w).2.GetPosition owner).y
            = (w.GetPosition owner).y ∧
          ((Update self owner app input dt w).2.GetPosition owner).z
            = (w.GetPosition owner).z) := by
  refine ⟨moveVector input dt, moveVector_y input dt hfin, moveVector_z input dt hfin,
    fun body hb => Update_body self owner app input dt w body hf hb, fun hb => ?_⟩
  rw [Update_nobody self owner app input dt w hf hb]
  refine ⟨rfl, ?_, ?_⟩
  · rw [GetPosition_SetPostion_self, Vec3.add_def]
    simp [moveVector_y input dt hfin, F32.add_zero_fin]
  · rw [GetPosition_SetPostion_self, Vec3.add_def]
    simp [moveVector_z input dt hfin, F32.add_zero_fin]

theorem Update_vector_along_X_witness :
    (F32.fin (1 / 60)).isFinite = true ∧
    focused.IsFocused = true ∧
    ∃ v : Vec3, v.y = 0 ∧ v.z = 0 ∧
      (∀ body, physicsWorld.GetRigidBody 0 = some body →
          Update new 0 focused (keysDown [GLFW_KEY_A]) (F32.fin (1 / 60)) physicsWorld
            = (new, physicsWorld.ApplyImpulse 0 body v)) ∧
      (physicsWorld.GetRigidBody 0 = none →
          Update new 0 focused (keysDown [GLFW_KEY_A]) (F32.fin (1 / 60)) physicsWorld
            = (new, physicsWorld.SetPostion 0 (physicsWorld.GetPosition 0 + v)) ∧
          ((Update new 0 focused (keysDown [GLFW_KEY_A]) (F32.fin (1 / 60))
              physicsWorld).2.GetPosition 0).y
            = (physicsWorld.GetPosition 0).y ∧
          ((Update new 0 focused (keysDown [GLFW_KEY_A]) (F32.fin (1 / 60))
              physicsWorld).2.GetPosition 0).z
            = (physicsWorld.GetPosition 0).z) :=
  ⟨rfl, rfl,
    Update_vector_along_X new 0 focused (keysDown [GLFW_KEY_A]) (F32.fin (1 / 60)) physicsWorld
      rfl rfl⟩

/-- C9: Update returns the component it was given, so _moveSpeed and
cameraAttached are unchanged by one Update and by any sequence of Updates; and
there is one function f of dt and the A and D key states such that, after any
sequence of earlier frames, a focused Update submits or adds exactly
f dt A D, and an unfocused Update does nothing. -/
theorem Update_retains_no_state :
    (∀ (self : SimplePlayerControl) (owner : ObjId) (app : Application)
        (input : InputEngine) (dt : F32) (w : World),
        (Update self owner app input dt w).1 = self) ∧
    (∀ (owner : ObjId) (frames : List Frame) (self : SimplePlayerControl) (w : World),
        (runFrames owner frames (self, w)).1 = self) ∧
    ∃ f : F32 → Bool → Bool → Vec3,
      ∀ (owner : ObjId) (frames : List Frame) (self : SimplePlayerControl) (w : World)
        (app : Application) (input : InputEngine) (dt : F32),
        Update (runFrames owner frames (self, w)).1 owner app input dt
            (runFrames owner frames (self, w)).2
          = (self,
              if app.IsFocused then
                match (runFrames owner frames (self, w)).2.GetRigidBody owner with
                | some body =>
                    (runFrames owner frames (self, w)).2.ApplyImpulse owner body
                      (f dt (input.IsKeyDown GLFW_KEY_A) (input.IsKeyDown GLFW_KEY_D))
                | none =>
                    (runFrames owner frames (self, w)).2.SetPostion owner
                      ((runFrames owner frames (self, w)).2.GetPosition owner
                        + f dt (input.IsKeyDown GLFW_KEY_A) (input.IsKeyDown GLFW_KEY_D))
              else (runFrames owner frames (self, w)).2) := by
  refine ⟨Update_fst, fun owner frames self w => runFrames_fst owner frames (self, w),
    fun dt a d =>
      if d then ⟨-3 * dt, 0 * dt, 0 * dt⟩
      else if a then ⟨3 * dt, 0 * dt, 0 * dt⟩ else ⟨0 * dt, 0 * dt, 0 * dt⟩, ?_⟩
  intro owner frames self w app input dt
  have h1 : (runFrames owner frames (self, w)).1 = self := runFrames_fst owner frames (self, w)
  rw [h1]
  generalize (runFrames owner frames (self, w)).2 = w1
  have hv : moveVector input dt
      = if input.IsKeyDown GLFW_KEY_D then ⟨-3 * dt, 0 * dt, 0 * dt⟩
        else if input.IsKeyDown GLFW_KEY_A then ⟨3 * dt, 0 * dt, 0 * dt⟩
        else ⟨0 * dt, 0 * dt, 0 * dt⟩ := by
    cases hD : input.IsKeyDown GLFW_KEY_D
    · cases hA : input.IsKeyDown GLFW_KEY_A
      · simp [moveVector_none_raw input dt hA hD]
      · simp [moveVector_A_raw input dt hA hD]
    · simp [moveVector_D_raw input dt hD]
  cases hf : app.IsFocused
  · simp [Update, hf]
  · cases hb : w1.GetRigidBody owner
    · rw [Update_nobody self owner app input dt w1 hf hb, hv]; simp
    · rw [Update_body self owner app input dt w1 _ hf hb, hv]; simp

/-- C10 (the code at the failing input): the camera object 1 is attached with
setCamera, the owner 0 has no rigid body and sits at the origin, key A is held,
dt = 1, focused.  Update moves the owner to (3, 0, 0); the attached camera
object keeps its position, and so does every game object other than the
owner. -/
theorem Update_leaves_camera_behind :
    (new.setCamera (some 1)).cameraAttached = some 1 ∧
    plainWorld.GetPosition 0 = ⟨0, 0, 0⟩ ∧
    (Update (new.setCamera (some 1)) 0 focused (keysDown [GLFW_KEY_A]) 1
        plainWorld).2.GetPosition 0 = ⟨3, 0, 0⟩ ∧
    plainWorld.GetPosition 1 = ⟨0, 0, 0⟩ ∧
    (Update (new.setCamera (some 1)) 0 focused (keysDown [GLFW_KEY_A]) 1
        plainWorld).2.GetPosition 1 = ⟨0, 0, 0⟩ ∧
    ∀ obj, obj ≠ 0 →
      (Update (new.setCamera (some 1)) 0 focused (keysDown [GLFW_KEY_A]) 1
        plainWorld).2.GetPosition obj = plainWorld.GetPosition obj := by
  have hrest : ∀ obj, obj ≠ 0 →
      (Update (new.setCamera (some 1)) 0 focused (keysDown [GLFW_KEY_A]) 1
        plainWorld).2.GetPosition obj = plainWorld.GetPosition obj := by
    intro obj hne
    rw [Update_nobody _ 0 focused _ 1 plainWorld rfl rfl]
    exact GetPosition_SetPostion_ne plainWorld 0 obj _ hne
  refine ⟨rfl, rfl, ?_, rfl, ?_, hrest⟩
  · rw [Update_plainWorld_position, moveVector_A _ 1 rfl (by decide) (by decide),
      Vec3.add_def]
    simp [F32.ofNat_def, F32.mul_def, F32.mul, F32.add_eq, F32.add]
  · rw [hrest 1 (by decide)]; rfl

/-! ## Speed, idle frames, key precedence, serialization -/

/-- C11 (as stated, refuted): a default-constructed component, focused, key A
alone, dt = +infinity, owner with a rigid body.  The impulse submitted is
(inf, NaN, NaN), whose squared length is NaN, while _moveSpeed * |dt| is +inf:
the length of the vector is not _moveSpeed * |dt|. -/
theorem moveSpeed_not_the_speed_infinite_dt :
    new._moveSpeed = 3 ∧
    (Update new 0 focused (keysDown [GLFW_KEY_A]) F32.pinf physicsWorld).2.calls
      = [Call.ApplyImpulse 0 ⟨F32.pinf, F32.nan, F32.nan⟩] ∧
    (Vec3.mk F32.pinf F32.nan F32.nan).lengthSq = F32.nan ∧
    new._moveSpeed * F32.abs F32.pinf = F32.pinf ∧
    (Vec3.mk F32.pinf F32.nan F32.nan).lengthSq
      ≠ (new._moveSpeed * F32.abs F32.pinf) * (new._moveSpeed * F32.abs F32.pinf) := by
  have hv : moveVector (keysDown [GLFW_KEY_A]) F32.pinf = ⟨F32.pinf, F32.nan, F32.nan⟩ := by
    rw [moveVector_A_raw _ _ (by decide) (by decide)]
    simp [F32.ofNat_def, F32.mul_def, F32.mul, F32.infTimes]
  have hl : (Vec3.mk F32.pinf F32.nan F32.nan).lengthSq = F32.nan := by
    simp [Vec3.lengthSq, F32.mul_def, F32.mul, F32.add_eq, F32.add]
  have hs : new._moveSpeed * F32.abs F32.pinf = F32.pinf := by
    simp [new, F32.abs, F32.ofNat_def, F32.mul_def, F32.mul, F32.infTimes]
  refine ⟨rfl, ?_, hl, hs, ?_⟩
  · rw [Update_body new 0 focused _ F32.pinf physicsWorld ⟨[]⟩ rfl rfl, hv]
    rfl
  · rw [hl, hs]
    simp [F32.mul_def, F32.mul]

/-- C11 (amended): a component made by the constructor or by FromJson has
_moveSpeed = 3, and still has after any sequence of setCamera and Update calls;
for such a component and every finite dt, a focused Update with exactly one of
A, D down submits or adds a vector whose length is _moveSpeed * |dt|: that
product is a non-negative finite number m, and the squared length of the vector
is m * m. -/
theorem moveSpeed_is_the_speed (c0 : SimplePlayerControl) (calls : List MethodCall)
    (w0 : World) (owner : ObjId) (app : Application) (input : InputEngine) (dt : F32)
    (hc0 : c0 = new ∨ ∃ blob, c0 = FromJson blob)
    (hfin : dt.isFinite = true)
    (hf : app.IsFocused = true)
    (hkey : (input.IsKeyDown GLFW_KEY_A = true ∧ input.IsKeyDown GLFW_KEY_D = false) ∨
            (input.IsKeyDown GLFW_KEY_A = false ∧ input.IsKeyDown GLFW_KEY_D = true)) :
    c0._moveSpeed = 3 ∧
    (runCalls calls (c0, w0)).1._moveSpeed = 3 ∧
    ∃ v : Vec3,
      (∃ m : ℚ, 0 ≤ m ∧
        (runCalls calls (c0, w0)).1._moveSpeed * F32.abs dt = F32.fin m ∧
        v.lengthSq = F32.fin (m * m)) ∧
      (∀ body, (runCalls calls (c0, w0)).2.GetRigidBody owner = some body →
          Update (runCalls calls (c0, w0)).1 owner app input dt (runCalls calls (c0, w0)).2
            = ((runCalls calls (c0, w0)).1,
                (runCalls calls (c0, w0)).2.ApplyImpulse owner body v)) ∧
      ((runCalls calls (c0, w0)).2.GetRigidBody owner = none →
          Update (runCalls calls (c0, w0)).1 owner app input dt (runCalls calls (c0, w0)).2
            = ((runCalls calls (c0, w0)).1,
                (runCalls calls (c0, w0)).2.SetPostion owner
                  ((runCalls calls (c0, w0)).2.GetPosition owner + v))) := by
  have h0 : c0._moveSpeed = 3 := by
    rcases hc0 with h | ⟨blob, h⟩ <;> rw [h] <;> rfl
  have h1 : (runCalls calls (c0, w0)).1._moveSpeed = 3 := by
    rw [runCalls_moveSpeed calls (c0, w0)]; exact h0
  refine ⟨h0, h1, moveVector input dt, ?_,
    fun body hb => Update_body _ owner app input dt _ body hf hb,
    fun hb => Update_nobody _ owner app input dt _ hf hb⟩
  obtain ⟨q, rfl⟩ := F32.exists_of_isFinite hfin
  refine ⟨3 * |q|, by positivity, ?_, ?_⟩
  · rw [h1]
    simp [F32.abs, F32.ofNat_def, F32.mul_def, F32.mul]
  · have hsq : 3 * |q| * (3 * |q|) = 9 * (q * q) := by
      rw [← abs_mul_abs_self q]; ring
    rcases hkey with ⟨hA, hD⟩ | ⟨_, hD⟩
    · rw [moveVector_A input (F32.fin q) rfl hA hD, hsq]
      simp [Vec3.lengthSq, F32.ofNat_def, F32.mul_def, F32.mul, F32.add_eq, F32.add]
      ring
    · rw [moveVector_D input (F32.fin q) rfl hD, hsq]
      simp [Vec3.lengthSq, F32.ofNat_def, F32.mul_def, F32.mul, F32.add_eq, F32.add,
        F32.neg_def, F32.neg]
      ring

theorem moveSpeed_is_the_speed_witness :
    (FromJson Json.null = new ∨ ∃ blob, FromJson Json.null = FromJson blob) ∧
    (F32.fin (1 / 60)).isFinite = true ∧
    focused.IsFocused = true ∧
    ((keysDown [GLFW_KEY_D]).IsKeyDown GLFW_KEY_A = false ∧
      (keysDown [GLFW_KEY_D]).IsKeyDown GLFW_KEY_D = true) ∧
    (FromJson Json.null)._moveSpeed = 3 ∧
    (runCalls
        [MethodCall.setCamera (some 1),
          MethodCall.Update 0 focused (keysDown [GLFW_KEY_A]) 1]
        (FromJson Json.null, plainWorld)).1._moveSpeed = 3 :=
  ⟨Or.inl rfl, rfl, rfl, ⟨by decide, by decide⟩,
    (moveSpeed_is_the_speed (FromJson Json.null)
      [MethodCall.setCamera (some 1), MethodCall.Update 0 focused (keysDown [GLFW_KEY_A]) 1]
      plainWorld 0 focused (keysDown [GLFW_KEY_D]) (F32.fin (1 / 60))
      (Or.inl rfl) rfl rfl (Or.inr ⟨by decide, by decide⟩)).1,
    (moveSpeed_is_the_speed (FromJson Json.null)
      [MethodCall.setCamera (some 1), MethodCall.Update 0 focused (keysDown [GLFW_KEY_A]) 1]
      plainWorld 0 focused (keysDown [GLFW_KEY_D]) (F32.fin (1 / 60))
      (Or.inl rfl) rfl rfl (Or.inr ⟨by decide, by decide⟩)).2.1⟩

/-- C12 (as stated, refuted): focused, no key down, dt = +infinity.  The
movement vector is (NaN, NaN, NaN), not the zero vector: with a rigid body that
is the impulse submitted, and without one the owner goes from the origin to
(NaN, NaN, NaN). -/
theorem Update_no_key_infinite_dt :
    focused.IsFocused = true ∧
    (keysDown []).IsKeyDown GLFW_KEY_A = false ∧
    (keysDown []).IsKeyDown GLFW_KEY_D = false ∧
    moveVector (keysDown []) F32.pinf = ⟨F32.nan, F32.nan, F32.nan⟩ ∧
    moveVector (keysDown []) F32.pinf ≠ ⟨0, 0, 0⟩ ∧
    (Update new 0 focused (keysDown []) F32.pinf physicsWorld).2.calls
      = [Call.ApplyImpulse 0 ⟨F32.nan, F32.nan, F32.nan⟩] ∧
    plainWorld.GetPosition 0 = ⟨0, 0, 0⟩ ∧
    (Update new 0 focused (keysDown []) F32.pinf plainWorld).2.GetPosition 0
      = ⟨F32.nan, F32.nan, F32.nan⟩ ∧
    (Update new 0 focused (keysDown []) F32.pinf plainWorld).2.GetPosition 0
      ≠ plainWorld.GetPosition 0 := by
  have hv : moveVector (keysDown []) F32.pinf = ⟨F32.nan, F32.nan, F32.nan⟩ := by
    rw [moveVector_none_raw _ _ (by decide) (by decide)]
    simp [F32.ofNat_def, F32.mul_def, F32.mul, F32.infTimes]
  have hp : (Update new 0 focused (keysDown []) F32.pinf plainWorld).2.GetPosition 0
      = ⟨F32.nan, F32.nan, F32.nan⟩ := by
    rw [Update_plainWorld_position, hv, Vec3.add_def]
    simp [F32.ofNat_def, F32.add_eq, F32.add]
  refine ⟨rfl, by decide, by decide, hv, ?_, ?_, rfl, hp, ?_⟩
  · rw [hv]; simp [F32.ofNat_def]
  · rw [Update_body new 0 focused _ F32.pinf physicsWorld ⟨[]⟩ rfl rfl, hv]
    rfl
  · rw [hp]
    simp [World.GetPosition, plainWorld, F32.ofNat_def]

/-- C12 (amended): focused, neither A nor D down: for every finite dt the
movement vector is the zero vector; with a rigid body the one engine call made
is ApplyImpulse with the zero vector, and the body receives it; without a rigid
body the position of the owner, and of every other object, is what it was. -/
theorem Update_no_key (self : SimplePlayerControl) (owner : ObjId) (app : Application)
    (input : InputEngine) (dt : F32) (w : World)
    (hfin : dt.isFinite = true)
    (hf : app.IsFocused = true)
    (hA : input.IsKeyDown GLFW_KEY_A = false) (hD : input.IsKeyDown GLFW_KEY_D = false) :
    moveVector input dt = ⟨0, 0, 0⟩ ∧
    (∀ body, w.GetRigidBody owner = some body →
        Update self owner app input dt w = (self, w.ApplyImpulse owner body ⟨0, 0, 0⟩) ∧
        (Update self owner app input dt w).2.calls
          = w.calls ++ [Call.ApplyImpulse owner ⟨0, 0, 0⟩]) ∧
    (w.GetRigidBody owner = none →
        ∀ obj, (Update self owner app input dt w).2.GetPosition obj = w.GetPosition obj) := by
  have hv := moveVector_none input dt hfin hA hD
  refine ⟨hv, fun body hb => ?_, fun hb obj => ?_⟩
  · rw [Update_body self owner app input dt w body hf hb, hv]
    exact ⟨rfl, rfl⟩
  · rw [Update_nobody self owner app input dt w hf hb, hv]
    by_cases h : obj = owner
    · subst h
      rw [GetPosition_SetPostion_self, Vec3.add_zero]
    · exact GetPosition_SetPostion_ne w owner obj _ h

theorem Update_no_key_witness :
    (F32.fin (1 / 60)).isFinite = true ∧
    focused.IsFocused = true ∧
    (keysDown [GLFW_KEY_W]).IsKeyDown GLFW_KEY_A = false ∧
    (keysDown [GLFW_KEY_W]).IsKeyDown GLFW_KEY_D = false ∧
    physicsWorld.GetRigidBody 0 = some ⟨[]⟩ ∧
    (Update new 0 focused (keysDown [GLFW_KEY_W]) (F32.fin (1 / 60)) physicsWorld).2.calls
      = physicsWorld.calls ++ [Call.ApplyImpulse 0 ⟨0, 0, 0⟩] :=
  ⟨rfl, rfl, by decide, by decide, rfl,
    ((Update_no_key new 0 focused (keysDown [GLFW_KEY_W]) (F32.fin (1 / 60)) physicsWorld
      rfl rfl (by decide) (by decide)).2.1 ⟨[]⟩ rfl).2⟩

/-- C14: ToJson returns JSON null for every component; FromJson returns, for
every blob, the default-constructed component (_moveSpeed = 3, no camera); so
FromJson (ToJson c) is the default-constructed component for every c, and a
camera set on c with setCamera is gone after the round trip. -/
theorem serialization_carries_no_data :
    (∀ c : SimplePlayerControl, ToJson c = Json.null) ∧
    (∀ blob : Json, FromJson blob = new) ∧
    new._moveSpeed = 3 ∧ new.cameraAttached = none ∧
    (∀ c : SimplePlayerControl, FromJson (ToJson c) = new) ∧
    (∀ (c : SimplePlayerControl) (cam : ObjId),
        (c.setCamera (some cam)).cameraAttached = some cam ∧
        (FromJson (ToJson (c.setCamera (some cam)))).cameraAttached = none ∧
        FromJson (ToJson (c.setCamera (some cam))) ≠ c.setCamera (some cam)) := by
  refine ⟨fun _ => rfl, fun _ => rfl, rfl, rfl, fun _ => rfl, fun c cam => ⟨rfl, rfl, ?_⟩⟩
  intro h
  have h2 := congrArg SimplePlayerControl.cameraAttached h
  simp [FromJson, new, setCamera] at h2

/-! ## The scene builder: how each engine call acts on each field -/

namespace Scene

@[simp] theorem count_SetPostion (s : Scene) (o : ObjId) (p : Vec3) :
    (s.SetPostion o p).count = s.count := rfl

@[simp] theorem MainCamera_SetPostion (s : Scene) (o : ObjId) (p : Vec3) :
    (s.SetPostion o p).MainCamera = s.MainCamera := rfl

@[simp] theorem count_Add (s : Scene) (o : ObjId) (c : Component) :
    (s.Add o c).count = s.count := rfl

@[simp] theorem MainCamera_Add (s : Scene) (o : ObjId) (c : Component) :
    (s.Add o c).MainCamera = s.MainCamera := rfl

@[simp] theorem count_AddChild (s : Scene) (a b : ObjId) :
    (s.AddChild a b).count = s.count := rfl

@[simp] theorem MainCamera_AddChild (s : Scene) (a b : ObjId) :
    (s.AddChild a b).MainCamera = s.MainCamera := rfl

@[simp] theorem position_SetPostion (s : Scene) (o i : ObjId) (p : Vec3) :
    ((s.SetPostion o p).objects i).position
      = if i = o then p else (s.objects i).position := by
  by_cases h : i = o <;> simp [SetPostion, Function.update_apply, h]

@[simp] theorem name_SetPostion (s : Scene) (o i : ObjId) (p : Vec3) :
    ((s.SetPostion o p).objects i).name = (s.objects i).name := by
  by_cases h : i = o <;> simp [SetPostion, Function.update_apply, h]

@[simp] theorem components_SetPostion (s : Scene) (o i : ObjId) (p : Vec3) :
    ((s.SetPostion o p).objects i).components = (s.objects i).components := by
  by_cases h : i = o <;> simp [SetPostion, Function.update_apply, h]

@[simp] theorem parent_SetPostion (s : Scene) (o i : ObjId) (p : Vec3) :
    ((s.SetPostion o p).objects i).parent = (s.objects i).parent := by
  by_cases h : i = o <;> simp [SetPostion, Function.update_apply, h]

@[simp] theorem children_SetPostion (s : Scene) (o i : ObjId) (p : Vec3) :
    ((s.SetPostion o p).objects i).children = (s.objects i).children := by
  by_cases h : i = o <;> simp [SetPostion, Function.update_apply, h]

@[simp] theorem components_Add (s : Scene) (o i : ObjId) (c : Component) :
    ((s.Add o c).objects i).components
      = if i = o then (s.objects i).components ++ [c] else (s.objects i).components := by
  by_cases h : i = o <;> simp [Add, Function.update_apply, h]

@[simp] theorem name_Add (s : Scene) (o i : ObjId) (c : Component) :
    ((s.Add o c).objects i).name = (s.objects i).name := by
  by_cases h : i = o <;> simp [Add, Function.update_apply, h]

@[simp] theorem position_Add (s : Scene) (o i : ObjId) (c : Component) :
    ((s.Add o c).objects i).position = (s.objects i).position := by
  by_cases h : i = o <;> simp [Add, Function.update_apply, h]

@[simp] theorem parent_Add (s : Scene) (o i : ObjId) (c : Component) :
    ((s.Add o c).objects i).parent = (s.objects i).parent := by
  by_cases h : i = o <;> simp [Add, Function.update_apply, h]

@[simp] theorem children_Add (s : Scene) (o i : ObjId) (c : Component) :
    ((s.Add o c).objects i).children = (s.objects i).children := by
  by_cases h : i = o <;> simp [Add, Function.update_apply, h]

@[simp] theorem objects_setParent (s : Scene) (c p i : ObjId) :
    (s.setParent c p).objects i
      = if i = c then { s.objects i with parent := some p } else s.objects i := by
  by_cases h : i = c <;> simp [setParent, Function.update_apply, h]

@[simp] theorem objects_pushChild (s : Scene) (p c i : ObjId) :
    (s.pushChild p c).objects i
      = if i = p then { s.objects i with children := (s.objects i).children ++ [c] }
        else s.objects i := by
  by_cases h : i = p <;> simp [pushChild, Function.update_apply, h]

@[simp] theorem parent_AddChild (s : Scene) (a b i : ObjId) :
    ((s.AddChild a b).objects i).parent
      = if i = b then some a else (s.objects i).parent := by
  simp only [AddChild, objects_pushChild, objects_setParent]
  split_ifs <;> rfl

@[simp] theorem children_AddChild (s : Scene) (a b i : ObjId) :
    ((s.AddChild a b).objects i).children
      = if i = a then (s.objects i).children ++ [b] else (s.objects i).children := by
  simp only [AddChild, objects_pushChild, objects_setParent]
  split_ifs <;> rfl

@[simp] theorem name_AddChild (s : Scene) (a b i : ObjId) :
    ((s.AddChild a b).objects i).name = (s.objects i).name := by
  simp only [AddChild, objects_pushChild, objects_setParent]
  split_ifs <;> rfl

@[simp] theorem position_AddChild (s : Scene) (a b i : ObjId) :
    ((s.AddChild a b).objects i).position = (s.objects i).position := by
  simp only [AddChild, objects_pushChild, objects_setParent]
  split_ifs <;> rfl

@[simp] theorem components_AddChild (s : Scene) (a b i : ObjId) :
    ((s.AddChild a b).objects i).components = (s.objects i).components := by
  simp only [AddChild, objects_pushChild, objects_setParent]
  split_ifs <;> rfl

end Scene

open DefaultSceneLayer

theorem lightLoop_once (lightParent : ObjId) (scene : Scene) :
    (List.range 1).foldl (fun sc _ix => lightLoopBody lightParent sc) scene
      = lightLoopBody lightParent scene := rfl

theorem buildObjects_handles (s0 : Scene) :
    (buildObjects s0).1
      = { lightParent := s0.count, camera := s0.MainCamera, platform1 := s0.count + 4,
          mainChar := s0.count + 5, particlesMC := s0.count + 6, ball := s0.count + 7,
          particlesBall := s0.count + 8, backgroundScene := s0.count + 9,
          winScene := s0.count + 10, loseScene := s0.count + 11,
          shadowCaster := s0.count + 12, particles := s0.count + 13 } := by
  simp only [buildObjects, lightLoop_once]
  simp [lightLoopBody, Scene.CreateGameObject, Nat.add_assoc]

theorem buildObjects_count (s0 : Scene) : (buildObjects s0).2.count = s0.count + 14 := by
  simp only [buildObjects, lightLoop_once]
  simp [lightLoopBody, Scene.CreateGameObject, Nat.add_assoc]

theorem buildObjects_mainChar_position (s0 : Scene) :
    ((buildObjects s0).2.objects (s0.count + 5)).position = ⟨-5.43, -0.23, 2.5⟩ := by
  simp only [buildObjects, lightLoop_once]
  simp [lightLoopBody, Scene.CreateGameObject, Function.update_apply, Nat.add_assoc]

theorem CreateScene_eq_buildObjects (s0 : Scene) :
    _CreateScene s0 = ((buildObjects s0).2, []) := by
  have hz : ¬ ((buildObjects s0).2.GetPosition (buildObjects s0).1.mainChar).z < 0 := by
    rw [buildObjects_handles, Scene.GetPosition, buildObjects_mainChar_position]
    exact F32.not_lt_zero_2_5
  simp [_CreateScene, loseCheck, hz]

/-- The parent of the created object number `k`, as the builder leaves it. -/
theorem buildObjects_parent (s0 : Scene) (k : Fin 14) :
    ((buildObjects s0).2.objects (s0.count + k)).parent
      = if k.val = 1 ∨ k.val = 2 ∨ k.val = 3 then some s0.count
        else if k.val = 6 ∨ k.val = 8 then some (s0.count + 5) else none := by
  simp only [buildObjects, lightLoop_once]
  fin_cases k <;>
    simp [lightLoopBody, Scene.CreateGameObject, Function.update_apply, Nat.add_assoc]

/-- The children of the created object number `k`, as the builder leaves it. -/
theorem buildObjects_children (s0 : Scene) (k : Fin 14) :
    ((buildObjects s0).2.objects (s0.count + k)).children
      = if k.val = 0 then [s0.count + 1, s0.count + 2, s0.count + 3]
        else if k.val = 5 then [s0.count + 6, s0.count + 8] else [] := by
  simp only [buildObjects, lightLoop_once]
  fin_cases k <;>
    simp [lightLoopBody, Scene.CreateGameObject, Function.update_apply, Nat.add_assoc]

/-- The name of the created object number `k`. -/
theorem buildObjects_name (s0 : Scene) (k : Fin 14) :
    ((buildObjects s0).2.objects (s0.count + k)).name
      = ["Lights", "Light", "Light2", "Light3", "platform1", "main char", "Particles",
          "ball", "Particles", "background", "win", "lose", "Shadow Light",
          "Particles"].getD k.val "" := by
  simp only [buildObjects, lightLoop_once]
  fin_cases k <;>
    simp [lightLoopBody, Scene.CreateGameObject, Function.update_apply, Nat.add_assoc]

/-- The components of the created object number `k`, in order of attachment. -/
theorem buildObjects_components (s0 : Scene) (k : Fin 14) :
    ((buildObjects s0).2.objects (s0.count + k)).components
      = [[], [Component.Light], [Component.Light], [Component.Light],
          [Component.RigidBody RigidBodyType.Static, Component.RenderComponent],
          [Component.RenderComponent, Component.RigidBody RigidBodyType.Dynamic,
            Component.JumpBehaviour, Component.TriggerVolume],
          [Component.ParticleSystem],
          [Component.RenderComponent, Component.RigidBody RigidBodyType.Dynamic,
            Component.TriggerVolume],
          [Component.ParticleSystem], [Component.RenderComponent],
          [Component.RenderComponent], [Component.RenderComponent],
          [Component.ShadowCamera], [Component.ParticleSystem]].getD k.val [] := by
  simp only [buildObjects, lightLoop_once]
  fin_cases k <;>
    simp [lightLoopBody, Scene.CreateGameObject, Function.update_apply, Nat.add_assoc]

/-- The builder leaves name, components, parent and children of the objects
that were in the scene before it ran as they were. -/
theorem buildObjects_old (s0 : Scene) (i : Nat) (hi : i < s0.count) :
    ((buildObjects s0).2.objects i).name = (s0.objects i).name ∧
    ((buildObjects s0).2.objects i).components = (s0.objects i).components ∧
    ((buildObjects s0).2.objects i).parent = (s0.objects i).parent ∧
    ((buildObjects s0).2.objects i).children = (s0.objects i).children := by
  have h0 : i ≠ s0.count := by omega
  have hk : ∀ k, i ≠ s0.count + k := fun k => by omega
  simp only [buildObjects, lightLoop_once]
  simp [lightLoopBody, Scene.CreateGameObject, Function.update_apply, Nat.add_assoc, h0, hk]

/-! ## The scene that `_CreateScene` hands to the application -/

/-- C15 (the code, for every scene the builder starts from): in the scene
handed to the application "Lights" has exactly the children "Light", "Light2",
"Light3", in that order, and every object passed to AddChild has one parent,
not itself; but the "Particles" object created inside the block of "ball" is a
child of "main char", not of "ball": "main char" has both particle objects as
children and "ball" has none. -/
theorem CreateScene_hierarchy (s0 : Scene) :
    ((_CreateScene s0).1.objects (buildObjects s0).1.lightParent).name = "Lights" ∧
    ((_CreateScene s0).1.objects (buildObjects s0).1.lightParent).children
      = [s0.count + 1, s0.count + 2, s0.count + 3] ∧
    ((_CreateScene s0).1.objects (s0.count + 1)).name = "Light" ∧
    ((_CreateScene s0).1.objects (s0.count + 2)).name = "Light2" ∧
    ((_CreateScene s0).1.objects (s0.count + 3)).name = "Light3" ∧
    ((_CreateScene s0).1.objects (buildObjects s0).1.mainChar).name = "main char" ∧
    ((_CreateScene s0).1.objects (buildObjects s0).1.ball).name = "ball" ∧
    ((_CreateScene s0).1.objects (buildObjects s0).1.particlesMC).name = "Particles" ∧
    ((_CreateScene s0).1.objects (buildObjects s0).1.particlesBall).name = "Particles" ∧
    ((_CreateScene s0).1.objects (buildObjects s0).1.particlesMC).parent
      = some (buildObjects s0).1.mainChar ∧
    ((_CreateScene s0).1.objects (buildObjects s0).1.particlesBall).parent
      = some (buildObjects s0).1.mainChar ∧
    ((_CreateScene s0).1.objects (buildObjects s0).1.particlesBall).parent
      ≠ some (buildObjects s0).1.ball ∧
    ((_CreateScene s0).1.objects (buildObjects s0).1.mainChar).children
      = [(buildObjects s0).1.particlesMC, (buildObjects s0).1.particlesBall] ∧
    ((_CreateScene s0).1.objects (buildObjects s0).1.ball).children = [] ∧
    (∀ k : Fin 14,
      ((_CreateScene s0).1.objects (s0.count + k)).parent
        = if k.val = 1 ∨ k.val = 2 ∨ k.val = 3 then some s0.count
          else if k.val = 6 ∨ k.val = 8 then some (s0.count + 5) else none) ∧
    (∀ k : Fin 14,
      ((_CreateScene s0).1.objects (s0.count + k)).children
        = if k.val = 0 then [s0.count + 1, s0.count + 2, s0.count + 3]
          else if k.val = 5 then [s0.count + 6, s0.count + 8] else []) := by
  rw [CreateScene_eq_buildObjects, buildObjects_handles]
  have hn := fun k h => buildObjects_name s0 ⟨k, h⟩
  have hp := fun k h => buildObjects_parent s0 ⟨k, h⟩
  have hc := fun k h => buildObjects_children s0 ⟨k, h⟩
  refine ⟨?_, ?_, ?_, ?_, ?_, ?_, ?_, ?_, ?_, ?_, ?_, ?_, ?_, ?_,
    buildObjects_parent s0, buildObjects_children s0⟩
  · simpa using hn 0 (by decide)
  · simpa using hc 0 (by decide)
  · simpa using hn 1 (by decide)
  · simpa using hn 2 (by decide)
  · simpa using hn 3 (by decide)
  · simpa using hn 5 (by decide)
  · simpa using hn 7 (by decide)
  · simpa using hn 6 (by decide)
  · simpa using hn 8 (by decide)
  · simpa using hp 6 (by decide)
  · simpa using hp 8 (by decide)
  · have h := hp 8 (by decide)
    simp only [] at h
    rw [h]
    simp
  · simpa using hc 5 (by decide)
  · simpa using hc 7 (by decide)

/-- C16: at the lose check the position of "main char" is (-5.43, -0.23, 2.5),
whose z is not below 0; the check leaves the scene as it is and prints nothing;
in the scene handed to the application "lose" is at (0, -2.73, -4), the
position of "win". -/
theorem CreateScene_lose_check_never_fires (s0 : Scene) :
    ((buildObjects s0).2.objects (buildObjects s0).1.mainChar).name = "main char" ∧
    (buildObjects s0).2.GetPosition (buildObjects s0).1.mainChar = ⟨-5.43, -0.23, 2.5⟩ ∧
    ¬ ((buildObjects s0).2.GetPosition (buildObjects s0).1.mainChar).z < 0 ∧
    loseCheck (buildObjects s0).1 (buildObjects s0).2 = ((buildObjects s0).2, []) ∧
    _CreateScene s0 = ((buildObjects s0).2, []) ∧
    ((_CreateScene s0).1.objects (buildObjects s0).1.loseScene).name = "lose" ∧
    ((_CreateScene s0).1.objects (buildObjects s0).1.winScene).name = "win" ∧
    (_CreateScene s0).1.GetPosition (buildObjects s0).1.loseScene = ⟨0, -2.73, -4⟩ ∧
    (_CreateScene s0).1.GetPosition (buildObjects s0).1.winScene = ⟨0, -2.73, -4⟩ ∧
    (_CreateScene s0).1.GetPosition (buildObjects s0).1.loseScene
      = (_CreateScene s0).1.GetPosition (buildObjects s0).1.winScene := by
  have hlose : ((buildObjects s0).2.objects (s0.count + 11)).position = ⟨0, -2.73, -4⟩ := by
    simp only [buildObjects, lightLoop_once]
    simp [lightLoopBody, Scene.CreateGameObject, Function.update_apply, Nat.add_assoc]
  have hwin : ((buildObjects s0).2.objects (s0.count + 10)).position = ⟨0, -2.73, -4⟩ := by
    simp only [buildObjects, lightLoop_once]
    simp [lightLoopBody, Scene.CreateGameObject, Function.update_apply, Nat.add_assoc]
  have hn := fun k h => buildObjects_name s0 ⟨k, h⟩
  have hE := CreateScene_eq_buildObjects s0
  rw [hE, buildObjects_handles]
  simp only [Scene.GetPosition]
  rw [buildObjects_mainChar_position, hlose, hwin]
  refine ⟨?_, rfl, F32.not_lt_zero_2_5, ?_, trivial, ?_, ?_, rfl, rfl, rfl⟩
  · simpa using hn 5 (by decide)
  · rw [← buildObjects_handles]; exact hE
  · simpa using hn 11 (by decide)
  · simpa using hn 10 (by decide)

/-- C17: the builder creates fourteen objects and attaches SimplePlayerControl
to none of them, and it attaches nothing to the objects the scene had before;
so if no object of the starting scene carries a SimplePlayerControl, no object
of the scene handed to the application does.  "main char" carries exactly
RenderComponent, a Dynamic RigidBody, JumpBehaviour and TriggerVolume. -/
theorem CreateScene_no_SimplePlayerControl (s0 : Scene) :
    (_CreateScene s0).1.count = s0.count + 14 ∧
    (∀ k : Fin 14,
      Component.SimplePlayerControl ∉ ((_CreateScene s0).1.objects (s0.count + k)).components) ∧
    (∀ i : Nat, i < s0.count →
      ((_CreateScene s0).1.objects i).components = (s0.objects i).components) ∧
    ((∀ i : Nat, i < s0.count → Component.SimplePlayerControl ∉ (s0.objects i).components) →
      ∀ i : Nat, i < (_CreateScene s0).1.count →
        Component.SimplePlayerControl ∉ ((_CreateScene s0).1.objects i).components) ∧
    ((_CreateScene s0).1.objects (buildObjects s0).1.mainChar).name = "main char" ∧
    ((_CreateScene s0).1.objects (buildObjects s0).1.mainChar).components
      = [Component.RenderComponent, Component.RigidBody RigidBodyType.Dynamic,
          Component.JumpBehaviour, Component.TriggerVolume] := by
  rw [CreateScene_eq_buildObjects, buildObjects_handles]
  have hnew : ∀ k : Fin 14,
      Component.SimplePlayerControl ∉ ((buildObjects s0).2.objects (s0.count + k)).components := by
    intro k
    rw [buildObjects_components]
    fin_cases k <;> simp
  have hold : ∀ i : Nat, i < s0.count →
      ((buildObjects s0).2.objects i).components = (s0.objects i).components :=
    fun i hi => (buildObjects_old s0 i hi).2.1
  refine ⟨buildObjects_count s0, hnew, hold, ?_, ?_, ?_⟩
  · intro h0 i hi
    rw [buildObjects_count] at hi
    by_cases hlt : i < s0.count
    · rw [hold i hlt]; exact h0 i hlt
    · have hk : i - s0.count < 14 := by omega
      have := hnew ⟨i - s0.count, hk⟩
      have he : s0.count + (i - s0.count) = i := by omega
      simpa [he] using this
  · simpa using buildObjects_name s0 ⟨5, by decide⟩
  · simpa using buildObjects_components s0 ⟨5, by decide⟩

theorem CreateScene_no_SimplePlayerControl_witness :
    (_CreateScene cameraOnlyScene).1.count = 15 ∧
    Component.SimplePlayerControl ∉ ((_CreateScene cameraOnlyScene).1.objects 0).components ∧
    Component.SimplePlayerControl ∉ ((_CreateScene cameraOnlyScene).1.objects 6).components :=
  ⟨(CreateScene_no_SimplePlayerControl cameraOnlyScene).1,
    (CreateScene_no_SimplePlayerControl cameraOnlyScene).2.2.2.1
      (fun i _ => by simp [cameraOnlyScene]) 0
      (by rw [(CreateScene_no_SimplePlayerControl cameraOnlyScene).1]; decide),
    (CreateScene_no_SimplePlayerControl cameraOnlyScene).2.2.2.1
      (fun i _ => by simp [cameraOnlyScene]) 6
      (by rw [(CreateScene_no_SimplePlayerControl cameraOnlyScene).1]; decide)⟩

end Week11
